import Mathlib

/-!
# Verification of the trace-viewer process/surface state machine

Shallow embedding of `src/traceViewer.ts` (`TraceViewer` class and its
`TraceViewerView` display surface).  The class's mutable fields become a
state record; each method / event handler becomes a pure function
`... → TraceViewerState → TraceViewerState × List Effect`, where the
effect list records the externally observable actions (process spawns,
user-facing warnings, stdin writes, webview creation/refresh/disposal,
logging) in the order the code performs them.
-/

/-- Source: `export const kEmbeddedMinVersion = 1.45;`. -/
def kEmbeddedMinVersion : ℚ := 1.45

/-- Source: `const version = 1.35;` — the overall minimum version used in
`TraceViewer._checkVersion`. -/
def overallMinVersion : ℚ := 1.35

/-- Model of `vscodeTypes.Uri`: only the pieces `getPath` touches — the scheme, the
`fsPath`, and its string form (JS `+` stringifies the object). -/
structure Uri where
  scheme : String
  fsPath : String
  str : String
deriving Repr, DecidableEq

/-- A `string | vscodeTypes.Uri` argument, as received by `TraceViewer.open`. -/
inductive FileRef where
  | str (s : String)
  | uri (u : Uri)
deriving Repr, DecidableEq

/-- JS truthiness of the `file` argument: an empty string is falsy, any
object (`Uri`) is truthy. -/
def FileRef.isFalsy : FileRef → Bool
  | .str s => s = ""
  | .uri _ => false

/-- Source: `function getPath(uriOrPath)` — a string is returned as is; a `file:`
Uri yields its `fsPath`; any other Uri is used directly (stringified on
write). -/
def getPath : FileRef → String
  | .str s => s
  | .uri u => if u.scheme = "file" then u.fsPath else u.str

/-- Model of `config: TestConfig` — the fields `TraceViewer` reads. -/
structure TestConfig where
  cli : String
  workspaceFolder : String
  version : ℚ
deriving Repr, DecidableEq

/-- The spawned `ChildProcess` handle held in `_traceViewerProcess`. -/
structure ProcessHandle where
  args : List String
  stdinWrites : List String
  stdinEnded : Bool
  killed : Bool
deriving Repr, DecidableEq

/-- The `TraceViewerView` webview panel: `shownUrl = none` renders the
loading placeholder, `some u` renders the iframe at `u`. -/
structure ViewState where
  shownUrl : Option String
deriving Repr, DecidableEq

/-- Externally observable actions, in program order. -/
inductive Effect where
  | spawn (node : String) (args : List String) (cwd : String)
  | warning (required found : ℚ) (feature : String)
  | stdinWrite (data : String)
  | stdinEnd
  | procKill
  | viewCreate (url : Option String)
  | viewShow (url : Option String)
  | viewDisposed
  | errorMessage (msg : String)
  | log (s : String)
deriving Repr, DecidableEq

/-- Ambient environment: `vscode.env.remoteName` truthiness, the node
executable resolved by `findNode`, and the
`Uri.parse ∘ vscode.env.asExternalUri ∘ toString` normalization. -/
structure Env where
  remoteName : Bool
  nodePath : String
  asExternalUri : String → String

/-- The mutable fields of the `TraceViewer` class together with the two
observable settings it reads (`showTrace`, `embedTraceViewer`). -/
structure TraceViewerState where
  traceViewerProcess : Option ProcessHandle
  embedded : Bool
  traceViewerUrl : Option String
  traceViewerView : Option ViewState
  restart : Bool
  currentFile : Option FileRef
  showTrace : Bool
  embedTraceViewer : Bool

namespace TraceViewer

/-- Source: `TraceViewer._checkEmbeddedVersion` — `config.version >= kEmbeddedMinVersion`. -/
def checkEmbeddedVersion (c : TestConfig) : Bool :=
  kEmbeddedMinVersion ≤ c.version

/-- Source: `TraceViewer._checkVersion` with the default `message`("this feature"):
below 1.35 it surfaces one warning naming the required and found versions
and reports failure. -/
def checkVersion (c : TestConfig) : Bool × List Effect :=
  if c.version < overallMinVersion then
    (false, [Effect.warning overallMinVersion c.version "this feature"])
  else (true, [])

/-- Source: `TraceViewer._maybeOpenEmbeddedTraceViewer` — guarded creation of the
webview; the `TraceViewerView` constructor ends with `show(url)` at the
current `_traceViewerUrl`. -/
def maybeOpenEmbeddedTraceViewer (c : TestConfig) (s : TraceViewerState) :
    TraceViewerState × List Effect :=
  if s.traceViewerView.isSome = true ∨ s.embedTraceViewer = false ∨
      checkEmbeddedVersion c = false then
    (s, [])
  else
    ({ s with traceViewerView := some { shownUrl := s.traceViewerUrl } },
     [Effect.viewCreate s.traceViewerUrl, Effect.viewShow s.traceViewerUrl])

/-- Source: `TraceViewer._startIfNeeded` — no-op when a process handle exists;
otherwise builds `[config.cli, 'show-trace', '--stdin']`, appends
`--server-only` (and eagerly materializes the webview) in embedded mode,
else appends `--host 0.0.0.0 --port 0` in a remote context, then spawns
and records the launch-time embedding mode. -/
def startIfNeeded (env : Env) (c : TestConfig) (s : TraceViewerState) :
    TraceViewerState × List Effect :=
  if s.traceViewerProcess.isSome = true then (s, [])
  else
    let embedded := s.embedTraceViewer && checkEmbeddedVersion c
    if embedded = true then
      let allArgs := [c.cli, "show-trace", "--stdin", "--server-only"]
      let r := maybeOpenEmbeddedTraceViewer c s
      ({ r.1 with
          traceViewerProcess :=
            some { args := allArgs, stdinWrites := [], stdinEnded := false, killed := false },
          embedded := embedded },
       r.2 ++ [Effect.spawn env.nodePath allArgs c.workspaceFolder])
    else
      let allArgs := [c.cli, "show-trace", "--stdin"] ++
        (if env.remoteName = true then ["--host", "0.0.0.0", "--port", "0"] else [])
      ({ s with
          traceViewerProcess :=
            some { args := allArgs, stdinWrites := [], stdinEnded := false, killed := false },
          embedded := embedded },
       [Effect.spawn env.nodePath allArgs c.workspaceFolder])

/-- Source: `this._traceViewerProcess?.stdin?.write(data)`. -/
def writeStdin (data : String) (s : TraceViewerState) :
    TraceViewerState × List Effect :=
  match s.traceViewerProcess with
  | none => (s, [])
  | some p =>
      ({ s with traceViewerProcess := some { p with stdinWrites := p.stdinWrites ++ [data] } },
       [Effect.stdinWrite data])

/-- Source: `TraceViewer.open(file, config)`. -/
def openTrace (env : Env) (file : FileRef) (c : TestConfig) (s : TraceViewerState) :
    TraceViewerState × List Effect :=
  if s.showTrace = false then (s, [])
  else
    let ck := checkVersion c
    if ck.1 = false then (s, ck.2)
    else if file.isFalsy = true ∧ s.traceViewerProcess = none then (s, [])
    else
      let r1 := startIfNeeded env c s
      let s2 := { r1.1 with currentFile := some file }
      let r3 := writeStdin (getPath file ++ "\n") s2
      let r4 := maybeOpenEmbeddedTraceViewer c r3.1
      (r4.1, r1.2 ++ r3.2 ++ r4.2)

/-- Source: `TraceViewer.close()` — ends stdin of the running process (if any) and
clears the handle. -/
def close (s : TraceViewerState) : TraceViewerState × List Effect :=
  ({ s with traceViewerProcess := none },
   if s.traceViewerProcess.isSome = true then [Effect.stdinEnd] else [])

/-- Source: `TraceViewer.willRunTests(config)` — pre-warm, gated only on the
`showTrace` setting. -/
def willRunTests (env : Env) (c : TestConfig) (s : TraceViewerState) :
    TraceViewerState × List Effect :=
  if s.showTrace = true then startIfNeeded env c s else (s, [])

/-- Handler for `settingsModel.showTrace.onChange`: the setting has taken its
new value; when turned off with a live process, `close()` runs. -/
def onShowTraceChange (v : Bool) (s : TraceViewerState) :
    TraceViewerState × List Effect :=
  let s0 := { s with showTrace := v }
  if v = false ∧ s0.traceViewerProcess.isSome = true then close s0 else (s0, [])

/-- Handler for `settingsModel.embedTraceViewer.onChange`: when the new value
differs from the launch-time `_embedded` mode, record the restart intent
(`_restart = !!_traceViewerProcess`), kill the process (the handle stays
until its exit event), and dispose the webview. -/
def onEmbedChange (v : Bool) (s : TraceViewerState) :
    TraceViewerState × List Effect :=
  let s0 := { s with embedTraceViewer := v }
  if s0.embedded ≠ v then
    let s1 := { s0 with restart := s0.traceViewerProcess.isSome }
    let r2 : TraceViewerState × List Effect :=
      match s1.traceViewerProcess with
      | none => (s1, [])
      | some p =>
          ({ s1 with traceViewerProcess := some { p with killed := true } }, [Effect.procKill])
    let r3 : TraceViewerState × List Effect :=
      match r2.1.traceViewerView with
      | none => (r2.1, [])
      | some _ => ({ r2.1 with traceViewerView := none }, [Effect.viewDisposed])
    ({ r3.1 with traceViewerView := none }, r2.2 ++ r3.2)
  else (s0, [])

/-- First element of `data.toString().split('\n')`: the prefix of the
chunk up to (not including) the first newline. -/
def firstLine (data : String) : String :=
  String.mk (data.data.takeWhile (fun ch => ch ≠ '\n'))

/-- Handler for `traceViewerProcess.stdout.on('data')`: while no endpoint is
recorded and embedding is enabled, an empty first line returns early
(before the log); a non-empty one is normalized via `asExternalUri`,
recorded, and pushed into the webview (if one exists). Every other chunk
is only logged. -/
def onStdout (env : Env) (data : String) (s : TraceViewerState) :
    TraceViewerState × List Effect :=
  if s.traceViewerUrl = none ∧ s.embedTraceViewer = true then
    let url := firstLine data
    if url = "" then (s, [])
    else
      let ext := env.asExternalUri url
      let s1 := { s with traceViewerUrl := some ext }
      match s1.traceViewerView with
      | none => (s1, [Effect.log data])
      | some w =>
          ({ s1 with traceViewerView := some { w with shownUrl := some ext } },
           [Effect.viewShow (some ext), Effect.log data])
  else (s, [Effect.log data])

/-- Handler for `traceViewerProcess.on('exit')` for the process launched with
`config = c`: clears the handle and url; a pending restart is cleared
first and then `open` replays `_currentFile ?? ''`. -/
def onExit (env : Env) (c : TestConfig) (s : TraceViewerState) :
    TraceViewerState × List Effect :=
  let s1 := { s with traceViewerProcess := none, traceViewerUrl := none }
  if s1.restart = true then
    let s2 := { s1 with restart := false }
    openTrace env (s2.currentFile.getD (FileRef.str "")) c s2
  else (s1, [])

/-- Handler for `traceViewerProcess.on('error')`: surface the message, then
`close()`. -/
def onError (msg : String) (s : TraceViewerState) :
    TraceViewerState × List Effect :=
  let r := close s
  (r.1, Effect.errorMessage msg :: r.2)

/-- Recognize process-spawn effects. -/
def Effect.isSpawn : Effect → Bool
  | .spawn .. => true
  | _ => false

/-- Recognize user-facing warning effects. -/
def Effect.isWarning : Effect → Bool
  | .warning .. => true
  | _ => false

/-- Number of process spawns in an effect trace. -/
def spawnCount (es : List Effect) : Nat :=
  (es.filter Effect.isSpawn).length

/-- Number of user-facing warnings in an effect trace. -/
def warningCount (es : List Effect) : Nat :=
  (es.filter Effect.isWarning).length

/-- Argument lists of the spawns in an effect trace, in order. -/
def spawnedArgs (es : List Effect) : List (List String) :=
  es.filterMap fun e => match e with
    | .spawn _ a _ => some a
    | _ => none

/-- The embedded-mode launch arguments. -/
def embeddedArgs (c : TestConfig) : List String :=
  [c.cli, "show-trace", "--stdin", "--server-only"]

/-- The standalone launch arguments (host/port flags only in a remote
context). -/
def standaloneArgs (env : Env) (c : TestConfig) : List String :=
  [c.cli, "show-trace", "--stdin"] ++
    (if env.remoteName = true then ["--host", "0.0.0.0", "--port", "0"] else [])

/-- A freshly spawned process handle. -/
def freshHandle (args : List String) : ProcessHandle :=
  { args := args, stdinWrites := [], stdinEnded := false, killed := false }

/-! ## Concrete fixtures used by the witnesses -/

/-- A concrete local environment (no remote, identity URI normalization). -/
def envW : Env := { remoteName := false, nodePath := "node", asExternalUri := id }

/-- A configuration above both version thresholds. -/
def cfg150 : TestConfig := { cli := "cli.js", workspaceFolder := "/ws", version := 1.50 }

/-- A configuration above the overall minimum but below the embedding
minimum. -/
def cfg140 : TestConfig := { cli := "cli.js", workspaceFolder := "/ws", version := 1.40 }

/-- A configuration below the overall minimum. -/
def cfg130 : TestConfig := { cli := "cli.js", workspaceFolder := "/ws", version := 1.30 }

/-- The idle state right after construction: no process, no view, no url,
no pending restart; `showTrace` on, `embedTraceViewer` off. -/
def sIdle : TraceViewerState :=
  { traceViewerProcess := none, embedded := false, traceViewerUrl := none,
    traceViewerView := none, restart := false, currentFile := none,
    showTrace := true, embedTraceViewer := false }

/-- Embedded session with a loading webview, waiting for the endpoint. -/
def sEmb : TraceViewerState :=
  { sIdle with embedTraceViewer := true, traceViewerView := some { shownUrl := none } }

/-- A live standalone process (version-capable config), embedding off,
with a remembered artifact. -/
def sRun : TraceViewerState :=
  { sIdle with
      traceViewerProcess := some (freshHandle (standaloneArgs envW cfg150)),
      currentFile := some (FileRef.str "/a.trace") }

/-- A live standalone process at version 1.40 (below the embedding
minimum), embedding off, with a remembered artifact. -/
def sRun140 : TraceViewerState :=
  { sIdle with
      traceViewerProcess := some (freshHandle (standaloneArgs envW cfg140)),
      currentFile := some (FileRef.str "/a.trace") }

/-- No process running, a restart intent left pending (set by an earlier
toggle whose process was then closed), embedding setting on, launch-time
mode standalone. -/
def sPending : TraceViewerState :=
  { sIdle with restart := true, embedTraceViewer := true }

end TraceViewer

namespace TraceViewer

/-! ## Helper lemmas -/

theorem spawnCount_append (a b : List Effect) :
    spawnCount (a ++ b) = spawnCount a + spawnCount b := by
  simp [spawnCount]

theorem checkVersion_lt {c : TestConfig} (h : c.version < overallMinVersion) :
    checkVersion c = (false, [Effect.warning overallMinVersion c.version "this feature"]) := by
  simp [checkVersion, h]

theorem checkVersion_ge {c : TestConfig} (h : overallMinVersion ≤ c.version) :
    checkVersion c = (true, []) := by
  simp [checkVersion, not_lt.mpr h]

theorem startIfNeeded_of_isSome (env : Env) (c : TestConfig) {s : TraceViewerState}
    (h : s.traceViewerProcess.isSome = true) :
    startIfNeeded env c s = (s, []) := by
  simp [startIfNeeded, h]

theorem writeStdin_spawnCount (d : String) (s : TraceViewerState) :
    spawnCount (writeStdin d s).2 = 0 := by
  cases h : s.traceViewerProcess <;> simp [writeStdin, h, spawnCount, Effect.isSpawn]

theorem writeStdin_proc_isSome (d : String) (s : TraceViewerState) :
    (writeStdin d s).1.traceViewerProcess.isSome = s.traceViewerProcess.isSome := by
  cases h : s.traceViewerProcess <;> simp [writeStdin, h]

theorem maybeOpen_spawnCount (c : TestConfig) (s : TraceViewerState) :
    spawnCount (maybeOpenEmbeddedTraceViewer c s).2 = 0 := by
  unfold maybeOpenEmbeddedTraceViewer
  split <;> simp [spawnCount, Effect.isSpawn]

theorem maybeOpen_proc (c : TestConfig) (s : TraceViewerState) :
    (maybeOpenEmbeddedTraceViewer c s).1.traceViewerProcess = s.traceViewerProcess := by
  unfold maybeOpenEmbeddedTraceViewer
  split <;> simp

theorem maybeOpen_warningCount (c : TestConfig) (s : TraceViewerState) :
    warningCount (maybeOpenEmbeddedTraceViewer c s).2 = 0 := by
  unfold maybeOpenEmbeddedTraceViewer
  split <;> simp [warningCount, Effect.isWarning]

theorem warningCount_append (a b : List Effect) :
    warningCount (a ++ b) = warningCount a + warningCount b := by
  simp [warningCount]

theorem startIfNeeded_none_embed (env : Env) (c : TestConfig) {s : TraceViewerState}
    (h : s.traceViewerProcess = none)
    (he : (s.embedTraceViewer && checkEmbeddedVersion c) = true) :
    startIfNeeded env c s =
      ({ (maybeOpenEmbeddedTraceViewer c s).1 with
          traceViewerProcess := some (freshHandle (embeddedArgs c)),
          embedded := true },
       (maybeOpenEmbeddedTraceViewer c s).2 ++
         [Effect.spawn env.nodePath (embeddedArgs c) c.workspaceFolder]) := by
  simp [startIfNeeded, h, he, freshHandle, embeddedArgs]

theorem startIfNeeded_none_standalone (env : Env) (c : TestConfig) {s : TraceViewerState}
    (h : s.traceViewerProcess = none)
    (he : (s.embedTraceViewer && checkEmbeddedVersion c) = false) :
    startIfNeeded env c s =
      ({ s with
          traceViewerProcess := some (freshHandle (standaloneArgs env c)),
          embedded := false },
       [Effect.spawn env.nodePath (standaloneArgs env c) c.workspaceFolder]) := by
  simp [startIfNeeded, h, he, freshHandle, standaloneArgs]

theorem startIfNeeded_of_none (env : Env) (c : TestConfig) {s : TraceViewerState}
    (h : s.traceViewerProcess = none) :
    spawnCount (startIfNeeded env c s).2 = 1 ∧
    (startIfNeeded env c s).1.traceViewerProcess.isSome = true ∧
    warningCount (startIfNeeded env c s).2 = 0 := by
  by_cases he : (s.embedTraceViewer && checkEmbeddedVersion c) = true
  · rw [startIfNeeded_none_embed env c h he]
    refine ⟨?_, by simp, ?_⟩
    · rw [spawnCount_append, maybeOpen_spawnCount]
      simp [spawnCount, Effect.isSpawn]
    · rw [warningCount_append, maybeOpen_warningCount]
      simp [warningCount, Effect.isWarning]
  · rw [startIfNeeded_none_standalone env c h (by simpa using he)]
    exact ⟨by simp [spawnCount, Effect.isSpawn], by simp,
      by simp [warningCount, Effect.isWarning]⟩

theorem openTrace_noShow (env : Env) (f : FileRef) (c : TestConfig)
    {s : TraceViewerState} (h : s.showTrace = false) :
    openTrace env f c s = (s, []) := by
  simp [openTrace, h]

theorem openTrace_lowVersion (env : Env) (f : FileRef) (c : TestConfig)
    {s : TraceViewerState} (hst : s.showTrace = true)
    (hv : c.version < overallMinVersion) :
    openTrace env f c s =
      (s, [Effect.warning overallMinVersion c.version "this feature"]) := by
  simp [openTrace, hst, checkVersion_lt hv]

theorem openTrace_noFile (env : Env) (f : FileRef) (c : TestConfig)
    {s : TraceViewerState} (hst : s.showTrace = true)
    (hv : overallMinVersion ≤ c.version) (hf : f.isFalsy = true)
    (hp : s.traceViewerProcess = none) :
    openTrace env f c s = (s, []) := by
  simp [openTrace, hst, checkVersion_ge hv, hf, hp]

theorem openTrace_main (env : Env) (f : FileRef) (c : TestConfig)
    {s : TraceViewerState} (hst : s.showTrace = true)
    (hv : overallMinVersion ≤ c.version)
    (hnn : ¬(f.isFalsy = true ∧ s.traceViewerProcess = none)) :
    openTrace env f c s =
      ((maybeOpenEmbeddedTraceViewer c
          (writeStdin (getPath f ++ "\n")
            { (startIfNeeded env c s).1 with currentFile := some f }).1).1,
       (startIfNeeded env c s).2 ++
         (writeStdin (getPath f ++ "\n")
            { (startIfNeeded env c s).1 with currentFile := some f }).2 ++
         (maybeOpenEmbeddedTraceViewer c
            (writeStdin (getPath f ++ "\n")
              { (startIfNeeded env c s).1 with currentFile := some f }).1).2) := by
  simp [openTrace, hst, checkVersion_ge hv, hnn]

theorem openTrace_of_isSome (env : Env) (f : FileRef) (c : TestConfig)
    {s : TraceViewerState} (h : s.traceViewerProcess.isSome = true) :
    spawnCount (openTrace env f c s).2 = 0 ∧
    (openTrace env f c s).1.traceViewerProcess.isSome = true := by
  by_cases hst : s.showTrace = false
  · rw [openTrace_noShow env f c hst]
    exact ⟨by simp [spawnCount], h⟩
  · replace hst : s.showTrace = true := by simpa using hst
    by_cases hcv : c.version < overallMinVersion
    · rw [openTrace_lowVersion env f c hst hcv]
      exact ⟨by simp [spawnCount, Effect.isSpawn], h⟩
    · have hnn : ¬(f.isFalsy = true ∧ s.traceViewerProcess = none) := by
        rintro ⟨-, hn⟩
        rw [hn] at h
        simp at h
      rw [openTrace_main env f c hst (not_lt.mp hcv) hnn,
        startIfNeeded_of_isSome env c h]
      constructor
      · rw [spawnCount_append, spawnCount_append, writeStdin_spawnCount,
          maybeOpen_spawnCount]
        simp [spawnCount]
      · rw [maybeOpen_proc, writeStdin_proc_isSome]
        simpa using h

/-! ## Claim theorems -/

/-- C1: with no live process, a first `open` (visualize) call spawns
exactly one process; a second sequential `open` call — any file, any
config — spawns none, because `_startIfNeeded` is a no-op while the
handle from the first call still exists: exactly one spawn occurs across
the pair of calls. -/
theorem c1_open_twice_single_spawn (env : Env) (f1 f2 : FileRef)
    (cA cB : TestConfig) (s : TraceViewerState)
    (hp : s.traceViewerProcess = none) (hshow : s.showTrace = true)
    (hv : overallMinVersion ≤ cA.version) (hf : f1.isFalsy = false) :
    spawnCount ((openTrace env f1 cA s).2 ++
      (openTrace env f2 cB (openTrace env f1 cA s).1).2) = 1 ∧
    (openTrace env f1 cA s).1.traceViewerProcess.isSome = true ∧
    startIfNeeded env cB (openTrace env f1 cA s).1 =
      ((openTrace env f1 cA s).1, []) := by
  have hnn : ¬(f1.isFalsy = true ∧ s.traceViewerProcess = none) := by
    rintro ⟨hb, -⟩
    rw [hf] at hb
    exact Bool.false_ne_true hb
  have hmain := openTrace_main env f1 cA hshow hv hnn
  have hstart := startIfNeeded_of_none env cA hp
  have hone : spawnCount (openTrace env f1 cA s).2 = 1 := by
    rw [hmain]
    rw [spawnCount_append, spawnCount_append, writeStdin_spawnCount,
      maybeOpen_spawnCount, hstart.1]
  have hsome : (openTrace env f1 cA s).1.traceViewerProcess.isSome = true := by
    rw [hmain]
    rw [maybeOpen_proc, writeStdin_proc_isSome]
    simpa using hstart.2.1
  refine ⟨?_, hsome, startIfNeeded_of_isSome env cB hsome⟩
  rw [spawnCount_append, hone, (openTrace_of_isSome env f2 cB hsome).1]

/-- C1 witness: at the idle state, `open '/a.trace'` then `open '/b.trace'`
spawn exactly one process in total. -/
theorem c1_witness :
    spawnCount ((openTrace envW (FileRef.str "/a.trace") cfg150 sIdle).2 ++
      (openTrace envW (FileRef.str "/b.trace") cfg150
        (openTrace envW (FileRef.str "/a.trace") cfg150 sIdle).1).2) = 1 ∧
    (openTrace envW (FileRef.str "/a.trace") cfg150 sIdle).1.traceViewerProcess.isSome = true ∧
    startIfNeeded envW cfg150 (openTrace envW (FileRef.str "/a.trace") cfg150 sIdle).1 =
      ((openTrace envW (FileRef.str "/a.trace") cfg150 sIdle).1, []) :=
  c1_open_twice_single_spawn envW (FileRef.str "/a.trace") (FileRef.str "/b.trace")
    cfg150 cfg150 sIdle rfl rfl (by norm_num [overallMinVersion, cfg150]) rfl

/-- C2: while `showTrace` is on, an `open` (visualize) call with a
non-empty artifact and a config version below the overall minimum 1.35
surfaces exactly one warning (naming the required version 1.35 and the
found version), spawns no process, and leaves the whole state unchanged. -/
theorem c2_low_version_one_warning_no_spawn (env : Env) (f : FileRef)
    (c : TestConfig) (s : TraceViewerState)
    (hshow : s.showTrace = true) (hv : c.version < overallMinVersion)
    (hf : f.isFalsy = false) :
    (openTrace env f c s).2 =
      [Effect.warning overallMinVersion c.version "this feature"] ∧
    warningCount (openTrace env f c s).2 = 1 ∧
    spawnCount (openTrace env f c s).2 = 0 ∧
    (openTrace env f c s).1 = s := by
  rw [openTrace_lowVersion env f c hshow hv]
  exact ⟨rfl, by simp [warningCount, Effect.isWarning],
    by simp [spawnCount, Effect.isSpawn], rfl⟩

/-- C2 witness: version 1.30 at the idle state — one warning naming 1.35,
zero spawns, state untouched. -/
theorem c2_witness :
    (openTrace envW (FileRef.str "/tmp/a.trace") cfg130 sIdle).2 =
      [Effect.warning overallMinVersion cfg130.version "this feature"] ∧
    warningCount (openTrace envW (FileRef.str "/tmp/a.trace") cfg130 sIdle).2 = 1 ∧
    spawnCount (openTrace envW (FileRef.str "/tmp/a.trace") cfg130 sIdle).2 = 0 ∧
    (openTrace envW (FileRef.str "/tmp/a.trace") cfg130 sIdle).1 = sIdle :=
  c2_low_version_one_warning_no_spawn envW (FileRef.str "/tmp/a.trace") cfg130 sIdle
    rfl (by norm_num [overallMinVersion, cfg130]) rfl

/-- C9: `willRunTests` applies no version gate — with `showTrace` on and
no live process it spawns exactly one process and surfaces no warning
even for a config below the overall minimum 1.35, while `open` on the
same state and config spawns nothing and surfaces one warning. -/
theorem c9_willRunTests_skips_version_gate (env : Env) (f : FileRef)
    (c : TestConfig) (s : TraceViewerState)
    (hshow : s.showTrace = true) (hp : s.traceViewerProcess = none)
    (hv : c.version < overallMinVersion) :
    spawnCount (willRunTests env c s).2 = 1 ∧
    warningCount (willRunTests env c s).2 = 0 ∧
    (willRunTests env c s).1.traceViewerProcess.isSome = true ∧
    spawnCount (openTrace env f c s).2 = 0 ∧
    warningCount (openTrace env f c s).2 = 1 := by
  have hw : willRunTests env c s = startIfNeeded env c s := by
    simp [willRunTests, hshow]
  have hstart := startIfNeeded_of_none env c hp
  rw [hw, openTrace_lowVersion env f c hshow hv]
  exact ⟨hstart.1, hstart.2.2, hstart.2.1,
    by simp [spawnCount, Effect.isSpawn], by simp [warningCount, Effect.isWarning]⟩

/-- C9 witness: version 1.30 at the idle state — `willRunTests` spawns
one process without warning; `open` warns and spawns none. -/
theorem c9_witness :
    spawnCount (willRunTests envW cfg130 sIdle).2 = 1 ∧
    warningCount (willRunTests envW cfg130 sIdle).2 = 0 ∧
    (willRunTests envW cfg130 sIdle).1.traceViewerProcess.isSome = true ∧
    spawnCount (openTrace envW (FileRef.str "/a.trace") cfg130 sIdle).2 = 0 ∧
    warningCount (openTrace envW (FileRef.str "/a.trace") cfg130 sIdle).2 = 1 :=
  c9_willRunTests_skips_version_gate envW (FileRef.str "/a.trace") cfg130 sIdle
    rfl rfl (by norm_num [overallMinVersion, cfg130])

/-- Spawn effects carry no list-of-spawn arguments in webview traffic. -/
theorem maybeOpen_spawnedArgs (c : TestConfig) (s : TraceViewerState) :
    spawnedArgs (maybeOpenEmbeddedTraceViewer c s).2 = [] := by
  unfold maybeOpenEmbeddedTraceViewer
  split <;> simp [spawnedArgs]

theorem spawnedArgs_append (a b : List Effect) :
    spawnedArgs (a ++ b) = spawnedArgs a ++ spawnedArgs b := by
  simp [spawnedArgs]

theorem maybeOpen_lowVersion {c : TestConfig} (h : checkEmbeddedVersion c = false)
    (s : TraceViewerState) :
    maybeOpenEmbeddedTraceViewer c s = (s, []) := by
  simp [maybeOpenEmbeddedTraceViewer, h]

/-- C4: with the embedding setting enabled but the config version in
[1.35, 1.45), `open` spawns exactly one process with the standalone
argument list — no `--server-only` flag — materializes no webview,
stays non-embedded, and surfaces no warning for the downgrade. -/
theorem c4_embed_downgrades_to_standalone (env : Env) (f : FileRef)
    (c : TestConfig) (s : TraceViewerState)
    (hp : s.traceViewerProcess = none) (hview : s.traceViewerView = none)
    (hshow : s.showTrace = true) (hemb : s.embedTraceViewer = true)
    (hv1 : overallMinVersion ≤ c.version) (hv2 : c.version < kEmbeddedMinVersion)
    (hf : f.isFalsy = false) (hcli : c.cli ≠ "--server-only") :
    spawnCount (openTrace env f c s).2 = 1 ∧
    spawnedArgs (openTrace env f c s).2 = [standaloneArgs env c] ∧
    "--server-only" ∉ standaloneArgs env c ∧
    (openTrace env f c s).1.traceViewerView = none ∧
    (openTrace env f c s).1.embedded = false ∧
    warningCount (openTrace env f c s).2 = 0 := by
  have hce : checkEmbeddedVersion c = false := by
    simp only [checkEmbeddedVersion, decide_eq_false_iff_not]
    exact not_le.mpr hv2
  have he : (s.embedTraceViewer && checkEmbeddedVersion c) = false := by
    rw [hce]
    simp
  have hnn : ¬(f.isFalsy = true ∧ s.traceViewerProcess = none) := by
    rintro ⟨hb, -⟩
    rw [hf] at hb
    exact Bool.false_ne_true hb
  rw [openTrace_main env f c hshow hv1 hnn, startIfNeeded_none_standalone env c hp he]
  simp only [writeStdin, freshHandle]
  rw [maybeOpen_lowVersion hce]
  refine ⟨?_, ?_, ?_, ?_, ?_, ?_⟩
  · simp [spawnCount, Effect.isSpawn]
  · simp [spawnedArgs]
  · intro hm
    have : c.cli = "--server-only" := by
      rcases henv : env.remoteName with _ | _ <;> simp [standaloneArgs, henv] at hm <;>
        exact hm.symm
    exact hcli this
  · simpa using hview
  · rfl
  · simp [warningCount, Effect.isWarning]

/-- C4 witness: version 1.40 with embedding on — one standalone spawn,
no `--server-only`, no webview, no warning. -/
theorem c4_witness :
    spawnCount (openTrace envW (FileRef.str "/a.trace") cfg140
      { sIdle with embedTraceViewer := true }).2 = 1 ∧
    spawnedArgs (openTrace envW (FileRef.str "/a.trace") cfg140
      { sIdle with embedTraceViewer := true }).2 = [standaloneArgs envW cfg140] ∧
    "--server-only" ∉ standaloneArgs envW cfg140 ∧
    (openTrace envW (FileRef.str "/a.trace") cfg140
      { sIdle with embedTraceViewer := true }).1.traceViewerView = none ∧
    (openTrace envW (FileRef.str "/a.trace") cfg140
      { sIdle with embedTraceViewer := true }).1.embedded = false ∧
    warningCount (openTrace envW (FileRef.str "/a.trace") cfg140
      { sIdle with embedTraceViewer := true }).2 = 0 :=
  c4_embed_downgrades_to_standalone envW (FileRef.str "/a.trace") cfg140
    { sIdle with embedTraceViewer := true } rfl rfl rfl rfl
    (by norm_num [overallMinVersion, cfg140])
    (by norm_num [kEmbeddedMinVersion, cfg140]) rfl (by decide)

/-- C5: a launch performed by `_startIfNeeded` appends the binding flags
`--host 0.0.0.0 --port 0` after the three base arguments exactly when the
environment is remote and the launch is not embedded; an embedded launch
gets `--server-only` instead and never the binding flags. -/
theorem c5_host_port_iff_remote_standalone (env : Env) (c : TestConfig)
    (s : TraceViewerState) (hp : s.traceViewerProcess = none) :
    ∃ a, spawnedArgs (startIfNeeded env c s).2 = [a] ∧
      (List.drop 3 a = ["--host", "0.0.0.0", "--port", "0"] ↔
        (env.remoteName = true ∧ (startIfNeeded env c s).1.embedded = false)) ∧
      ((startIfNeeded env c s).1.embedded = true → a = embeddedArgs c) := by
  by_cases he : (s.embedTraceViewer && checkEmbeddedVersion c) = true
  · rw [startIfNeeded_none_embed env c hp he]
    refine ⟨embeddedArgs c, ?_, ?_, fun _ => rfl⟩
    · rw [spawnedArgs_append, maybeOpen_spawnedArgs]
      simp [spawnedArgs]
    · simp [embeddedArgs]
  · rw [startIfNeeded_none_standalone env c hp (by simpa using he)]
    refine ⟨standaloneArgs env c, by simp [spawnedArgs], ?_, by simp⟩
    rcases henv : env.remoteName with _ | _ <;> simp [standaloneArgs, henv]

/-- C5 witness: remote environment, embedding off — the single spawn's
arguments carry the binding flags after the base arguments. -/
theorem c5_witness :
    ∃ a, spawnedArgs (startIfNeeded { envW with remoteName := true } cfg150 sIdle).2 = [a] ∧
      (List.drop 3 a = ["--host", "0.0.0.0", "--port", "0"] ↔
        (({ envW with remoteName := true } : Env).remoteName = true ∧
          (startIfNeeded { envW with remoteName := true } cfg150 sIdle).1.embedded = false)) ∧
      ((startIfNeeded { envW with remoteName := true } cfg150 sIdle).1.embedded = true →
        a = embeddedArgs cfg150) :=
  c5_host_port_iff_remote_standalone { envW with remoteName := true } cfg150 sIdle rfl

/-- C7: turning the `showTrace` setting off while a process is live runs
`close()`: the input stream is ended, the handle cleared, nothing is
spawned, and the restart intent is left untouched. -/
theorem c7_show_off_closes_without_respawn (s : TraceViewerState)
    (p : ProcessHandle) (hp : s.traceViewerProcess = some p) :
    onShowTraceChange false s =
      ({ s with showTrace := false, traceViewerProcess := none }, [Effect.stdinEnd]) ∧
    spawnCount (onShowTraceChange false s).2 = 0 ∧
    (onShowTraceChange false s).1.restart = s.restart := by
  have h : onShowTraceChange false s =
      ({ s with showTrace := false, traceViewerProcess := none }, [Effect.stdinEnd]) := by
    simp [onShowTraceChange, close, hp]
  exact ⟨h, by rw [h]; simp [spawnCount, Effect.isSpawn], by rw [h]⟩

/-- C7 witness: a live standalone process, setting turned off — stdin
ended, handle cleared, no spawn, restart untouched. -/
theorem c7_witness :
    onShowTraceChange false
      { sIdle with traceViewerProcess := some (freshHandle (standaloneArgs envW cfg150)) } =
      ({ { sIdle with traceViewerProcess := some (freshHandle (standaloneArgs envW cfg150)) }
          with showTrace := false, traceViewerProcess := none }, [Effect.stdinEnd]) ∧
    spawnCount (onShowTraceChange false
      { sIdle with traceViewerProcess := some (freshHandle (standaloneArgs envW cfg150)) }).2 = 0 ∧
    (onShowTraceChange false
      { sIdle with traceViewerProcess := some (freshHandle (standaloneArgs envW cfg150)) }).1.restart =
      ({ sIdle with traceViewerProcess := some (freshHandle (standaloneArgs envW cfg150)) } :
        TraceViewerState).restart :=
  c7_show_off_closes_without_respawn _ (freshHandle (standaloneArgs envW cfg150)) rfl

/-- C8: `close()` ends stdin exactly when a process is running, clears the
handle, and is idempotent — a second `close()` changes nothing and emits
nothing. -/
theorem c8_close_idempotent (s : TraceViewerState) :
    (close s).1.traceViewerProcess = none ∧
    (s.traceViewerProcess.isSome = true → (close s).2 = [Effect.stdinEnd]) ∧
    (s.traceViewerProcess.isSome = false → (close s).2 = []) ∧
    close (close s).1 = ((close s).1, []) := by
  refine ⟨rfl, fun h => by simp [close, h], fun h => by simp [close, h], ?_⟩
  simp [close]

/-- C8 witness: at a state with a live process, the two `close()` facts
hold concretely. -/
theorem c8_witness :
    (close { sIdle with traceViewerProcess := some (freshHandle (embeddedArgs cfg150)) }).1.traceViewerProcess = none ∧
    (({ sIdle with traceViewerProcess := some (freshHandle (embeddedArgs cfg150)) } :
        TraceViewerState).traceViewerProcess.isSome = true →
      (close { sIdle with traceViewerProcess := some (freshHandle (embeddedArgs cfg150)) }).2 =
        [Effect.stdinEnd]) ∧
    (({ sIdle with traceViewerProcess := some (freshHandle (embeddedArgs cfg150)) } :
        TraceViewerState).traceViewerProcess.isSome = false →
      (close { sIdle with traceViewerProcess := some (freshHandle (embeddedArgs cfg150)) }).2 = []) ∧
    close (close { sIdle with traceViewerProcess := some (freshHandle (embeddedArgs cfg150)) }).1 =
      ((close { sIdle with traceViewerProcess := some (freshHandle (embeddedArgs cfg150)) }).1, []) :=
  c8_close_idempotent { sIdle with traceViewerProcess := some (freshHandle (embeddedArgs cfg150)) }

/-- C6: stdout handling. While no endpoint is recorded and embedding is
on: an empty first line leaves the state untouched and emits nothing (the
handler keeps waiting); a non-empty first line records the normalized
endpoint and pushes it into the webview when one exists. Once an endpoint
is recorded — or when embedding is off — a chunk only gets logged. -/
theorem c6_stdout_endpoint_once (env : Env) (data : String) (s : TraceViewerState) :
    (s.traceViewerUrl = none → s.embedTraceViewer = true → firstLine data = "" →
      onStdout env data s = (s, [])) ∧
    (s.traceViewerUrl = none → s.embedTraceViewer = true → firstLine data ≠ "" →
      (onStdout env data s).1.traceViewerUrl =
        some (env.asExternalUri (firstLine data)) ∧
      (onStdout env data s).1.traceViewerView =
        s.traceViewerView.map
          (fun w => { w with shownUrl := some (env.asExternalUri (firstLine data)) }) ∧
      (s.traceViewerView.isSome = true →
        Effect.viewShow (some (env.asExternalUri (firstLine data))) ∈
          (onStdout env data s).2)) ∧
    (∀ u, s.traceViewerUrl = some u → onStdout env data s = (s, [Effect.log data])) ∧
    (s.embedTraceViewer = false → onStdout env data s = (s, [Effect.log data])) := by
  refine ⟨?_, ?_, ?_, ?_⟩
  · intro hu he hl
    simp [onStdout, hu, he, hl]
  · intro hu he hl
    cases hv : s.traceViewerView <;>
      simp [onStdout, hu, he, hl, hv]
  · intro u hu
    simp [onStdout, hu]
  · intro he
    by_cases hu : s.traceViewerUrl = none
    · simp [onStdout, hu, he]
    · simp [onStdout, hu]

/-- C6 witness: an empty chunk is ignored outright; the announcement line
`http://127.0.0.1:54231` is then recorded (normalized) and pushed into
the loading webview. -/
theorem c6_witness :
    onStdout envW "" sEmb = (sEmb, []) ∧
    (onStdout envW "http://127.0.0.1:54231\nListening" sEmb).1.traceViewerUrl =
      some (envW.asExternalUri (firstLine "http://127.0.0.1:54231\nListening")) ∧
    Effect.viewShow (some (envW.asExternalUri (firstLine "http://127.0.0.1:54231\nListening"))) ∈
      (onStdout envW "http://127.0.0.1:54231\nListening" sEmb).2 :=
  ⟨(c6_stdout_endpoint_once envW "" sEmb).1 rfl rfl (by decide),
   ((c6_stdout_endpoint_once envW "http://127.0.0.1:54231\nListening" sEmb).2.1
      rfl rfl (by decide)).1,
   ((c6_stdout_endpoint_once envW "http://127.0.0.1:54231\nListening" sEmb).2.1
      rfl rfl (by decide)).2.2 rfl⟩

theorem maybeOpen_embedded (c : TestConfig) (s : TraceViewerState) :
    (maybeOpenEmbeddedTraceViewer c s).1.embedded = s.embedded := by
  unfold maybeOpenEmbeddedTraceViewer
  split <;> simp

theorem maybeOpen_restart (c : TestConfig) (s : TraceViewerState) :
    (maybeOpenEmbeddedTraceViewer c s).1.restart = s.restart := by
  unfold maybeOpenEmbeddedTraceViewer
  split <;> simp

theorem writeStdin_embedded (d : String) (s : TraceViewerState) :
    (writeStdin d s).1.embedded = s.embedded := by
  cases h : s.traceViewerProcess <;> simp [writeStdin, h]

theorem writeStdin_restart (d : String) (s : TraceViewerState) :
    (writeStdin d s).1.restart = s.restart := by
  cases h : s.traceViewerProcess <;> simp [writeStdin, h]

theorem writeStdin_of_some (d : String) {s : TraceViewerState} {p : ProcessHandle}
    (h : s.traceViewerProcess = some p) :
    writeStdin d s =
      ({ s with traceViewerProcess := some { p with stdinWrites := p.stdinWrites ++ [d] } },
       [Effect.stdinWrite d]) := by
  simp [writeStdin, h]

/-- Behavior of `onEmbedChange` when the new value differs from the launch-time mode
and a process is live: it records the restart intent, kills the process
(handle retained), and drops the webview. -/
theorem onEmbedChange_live (v : Bool) {s : TraceViewerState} {p : ProcessHandle}
    (hp : s.traceViewerProcess = some p) (hg : s.embedded ≠ v) :
    (onEmbedChange v s).1 =
      { s with
          embedTraceViewer := v, restart := true,
          traceViewerProcess := some { p with killed := true },
          traceViewerView := none } ∧
    (onEmbedChange v s).2 =
      [Effect.procKill] ++
        (if s.traceViewerView.isSome = true then [Effect.viewDisposed] else []) := by
  cases hv : s.traceViewerView <;> simp [onEmbedChange, hp, hg, hv]

/-- C3 (amended): toggling the embedding setting to the value opposite
the launch-time mode while a process is alive — with the config at or
above the embedding minimum and the process launched in the mode matching
the previous setting — kills the process (the handle stays until exit),
drops the surface, and sets the restart intent; when that process reports
exit, the intent is cleared before the replay, `open` re-runs with the
last-requested artifact, exactly one process is spawned, its mode is the
opposite of the old one, and the intent ends false (no restart loop). -/
theorem c3_toggle_restarts_opposite_mode (env : Env) (c : TestConfig) (v : Bool)
    (s : TraceViewerState) (p : ProcessHandle)
    (hp : s.traceViewerProcess = some p)
    (hshow : s.showTrace = true)
    (hv : kEmbeddedMinVersion ≤ c.version)
    (hmode : s.embedded = s.embedTraceViewer)
    (htoggle : v = !s.embedTraceViewer)
    (hfile : (s.currentFile.getD (FileRef.str "")).isFalsy = false) :
    (onEmbedChange v s).1.traceViewerProcess = some { p with killed := true } ∧
    (onEmbedChange v s).1.traceViewerView = none ∧
    (onEmbedChange v s).1.restart = true ∧
    (onExit env c (onEmbedChange v s).1).1.restart = false ∧
    spawnCount (onExit env c (onEmbedChange v s).1).2 = 1 ∧
    (onExit env c (onEmbedChange v s).1).1.embedded = !s.embedded ∧
    Effect.stdinWrite (getPath (s.currentFile.getD (FileRef.str "")) ++ "\n") ∈
      (onExit env c (onEmbedChange v s).1).2 := by
  have hg : s.embedded ≠ v := by
    rw [hmode, htoggle]
    cases s.embedTraceViewer <;> simp
  obtain ⟨h1s, -⟩ := onEmbedChange_live v hp hg
  rw [h1s]
  refine ⟨rfl, rfl, rfl, ?_⟩
  have hv35 : overallMinVersion ≤ c.version :=
    le_trans (by norm_num [overallMinVersion, kEmbeddedMinVersion]) hv
  have hce : checkEmbeddedVersion c = true := decide_eq_true hv
  set f := s.currentFile.getD (FileRef.str "") with hf
  set s2 : TraceViewerState :=
    { s with
        embedTraceViewer := v, restart := false,
        traceViewerProcess := none, traceViewerView := none,
        traceViewerUrl := none } with hs2
  have hexit :
      onExit env c
        ({ s with
            embedTraceViewer := v, restart := true,
            traceViewerProcess := some { p with killed := true },
            traceViewerView := none } : TraceViewerState) =
      openTrace env f c s2 := rfl
  rw [hexit]
  have hshow2 : s2.showTrace = true := hshow
  have hproc2 : s2.traceViewerProcess = none := rfl
  have hnn : ¬(f.isFalsy = true ∧ s2.traceViewerProcess = none) := by
    rintro ⟨hb, -⟩
    rw [hf, hfile] at hb
    exact Bool.false_ne_true hb
  rw [openTrace_main env f c hshow2 hv35 hnn]
  cases hb : s.embedTraceViewer
  · -- previous setting off, process was standalone; toggled on → embedded relaunch
    have hveq : v = true := by rw [htoggle, hb]; rfl
    subst hveq
    have he : (s2.embedTraceViewer && checkEmbeddedVersion c) = true := by
      rw [hce]
      rfl
    rw [startIfNeeded_none_embed env c hproc2 he]
    rw [writeStdin_of_some (getPath f ++ "\n") (p := freshHandle (embeddedArgs c)) rfl]
    refine ⟨?_, ?_, ?_, ?_⟩
    · simp [maybeOpen_restart, hs2]
    · rw [spawnCount_append, spawnCount_append, spawnCount_append,
        maybeOpen_spawnCount, maybeOpen_spawnCount]
      simp [spawnCount, Effect.isSpawn]
    · simp [maybeOpen_embedded, hmode, hb]
    · simp
  · -- previous setting on, process was embedded; toggled off → standalone relaunch
    have hveq : v = false := by rw [htoggle, hb]; rfl
    subst hveq
    have he : (s2.embedTraceViewer && checkEmbeddedVersion c) = false := rfl
    rw [startIfNeeded_none_standalone env c hproc2 he]
    rw [writeStdin_of_some (getPath f ++ "\n") (p := freshHandle (standaloneArgs env c)) rfl]
    refine ⟨?_, ?_, ?_, ?_⟩
    · simp [maybeOpen_restart, hs2]
    · rw [spawnCount_append, spawnCount_append, maybeOpen_spawnCount]
      simp [spawnCount, Effect.isSpawn]
    · simp [maybeOpen_embedded, hmode, hb]
    · simp

/-- C3 witness: toggling embedding on over a live standalone process at
version 1.50 kills it, sets the intent, and the exit replay spawns one
embedded process. -/
theorem c3_witness :
    (onEmbedChange true sRun).1.traceViewerProcess =
      some { freshHandle (standaloneArgs envW cfg150) with killed := true } ∧
    (onEmbedChange true sRun).1.traceViewerView = none ∧
    (onEmbedChange true sRun).1.restart = true ∧
    (onExit envW cfg150 (onEmbedChange true sRun).1).1.restart = false ∧
    spawnCount (onExit envW cfg150 (onEmbedChange true sRun).1).2 = 1 ∧
    (onExit envW cfg150 (onEmbedChange true sRun).1).1.embedded = !sRun.embedded ∧
    Effect.stdinWrite (getPath (sRun.currentFile.getD (FileRef.str "")) ++ "\n") ∈
      (onExit envW cfg150 (onEmbedChange true sRun).1).2 :=
  c3_toggle_restarts_opposite_mode envW cfg150 true sRun
    (freshHandle (standaloneArgs envW cfg150)) rfl rfl
    (by norm_num [kEmbeddedMinVersion, cfg150]) rfl rfl rfl

/-- C3 counterexample: at config version 1.40 the embedding setting is
toggled on while a standalone process is alive; the process is killed and
the exit replay spawns exactly one process — but in the SAME standalone
mode, not the opposite one, because the version gate vetoes embedding. -/
theorem c3_counterexample :
    (onEmbedChange true sRun140).1.restart = true ∧
    spawnCount (onExit envW cfg140 (onEmbedChange true sRun140).1).2 = 1 ∧
    sRun140.embedded = false ∧
    (onExit envW cfg140 (onEmbedChange true sRun140).1).1.embedded = false ∧
    ¬((onExit envW cfg140 (onEmbedChange true sRun140).1).1.embedded =
        !sRun140.embedded) := by
  have hce : checkEmbeddedVersion cfg140 = false := by
    simp only [checkEmbeddedVersion, decide_eq_false_iff_not]
    norm_num [kEmbeddedMinVersion, cfg140]
  have hck : checkVersion cfg140 = (true, []) :=
    checkVersion_ge (by norm_num [overallMinVersion, cfg140])
  refine ⟨rfl, ?_, rfl, ?_, ?_⟩ <;>
    simp [onEmbedChange, onExit, openTrace, startIfNeeded, writeStdin,
      maybeOpenEmbeddedTraceViewer, hck, hce, sRun140, sIdle, freshHandle,
      spawnCount, Effect.isSpawn, getPath, FileRef.isFalsy, envW]

/-- C10 (amended): the restart intent can only end up true after an
embedding toggle if it was already true or a live process existed at that
moment; with no live process, the toggle sets it to false when the new
value differs from the launch-time mode, and leaves it (and the rest of
the state) unchanged when it does not — it is never raised without a live
process. -/
theorem c10_restart_needs_live_process (v : Bool) (s : TraceViewerState) :
    ((onEmbedChange v s).1.restart = true →
      s.restart = true ∨ s.traceViewerProcess.isSome = true) ∧
    (s.traceViewerProcess = none → s.embedded ≠ v →
      (onEmbedChange v s).1.restart = false) ∧
    (s.traceViewerProcess = none → s.embedded = v →
      (onEmbedChange v s).1.restart = s.restart) := by
  by_cases hg : s.embedded = v
  · refine ⟨?_, ?_, fun _ _ => ?_⟩ <;>
      simp [onEmbedChange, hg]
    exact fun h => Or.inl h
  · cases hp : s.traceViewerProcess with
    | none =>
        refine ⟨?_, fun _ _ => ?_, fun _ hgg => absurd hgg hg⟩ <;>
          cases hv : s.traceViewerView <;>
            simp [onEmbedChange, hg, hp, hv]
    | some p =>
        refine ⟨fun _ => Or.inr ?_, fun hn _ => ?_, fun hn _ => ?_⟩
        · simp [hp]
        · simp [hp] at hn
        · simp [hp] at hn

/-- C10 witness: toggling embedding on at the idle state (no process,
intent clear) leaves the intent false. -/
theorem c10_witness : (onEmbedChange true sIdle).1.restart = false :=
  (c10_restart_needs_live_process true sIdle).2.1 rfl (by decide)

/-- C10 counterexample: toggling the embedding setting off at `sPending` —
no process is running — does NOT set the restart intent to false: the
handler's `_embedded !== value` guard fails (both are `false`), so the
pending intent survives the toggle. -/
theorem c10_counterexample :
    sPending.traceViewerProcess = none ∧
    sPending.embedTraceViewer = true ∧
    (onEmbedChange false sPending).1.restart = true := by
  refine ⟨rfl, rfl, ?_⟩
  simp [onEmbedChange, sPending, sIdle]

end TraceViewer
